import Mathlib

/-!
Shallow embedding of the Adhan prayer-time engine
(`PrayerTimesCalculator` in `prayer-times.js`, and the Julian-date /
time-string helpers of `app.js`).

JavaScript IEEE-754 numbers are modelled by the real numbers `ℝ`
(the standard shallow embedding of floating-point arithmetic); the
JavaScript remainder operator `%` (sign of the dividend, truncated
quotient) is modelled by `jsMod`, `Math.atan2` by `jsAtan2`,
`Math.floor` by `Int.floor`, and integer `Math.floor(a/b)` by `Int.fdiv`.
Division by zero in `ℝ` yields 0 (the Lean convention); the source never
divides by an exact float zero on the inputs the theorems quantify over,
and hypotheses exclude the degenerate denominators where needed.

The only statement inside the `try` block of the engine that can raise is the
access `date.getUTCFullYear()` on a value that is not a `Date`; that
possibility is modelled by the `JSDate.notADate` constructor and an
`Except Unit` result for `getJulianDateE`.  `Math.*` functions and the
frozen method-parameter table never throw.

`getTimezoneOffset` consults the platform (`Intl.DateTimeFormat` and
`new Date()`, i.e. the wall clock at the moment of invocation); that
machinery is outside the repository and is passed explicitly as a
resolver function `String → Option ℝ` (see its doc comment).
-/

namespace Adhan

open Real

/-- Truncation toward zero of a real number, as the implicit JavaScript
truncated quotient in the `%` operator. -/
noncomputable def rtrunc (x : ℝ) : ℤ :=
  if 0 ≤ x then ⌊x⌋ else ⌈x⌉

/-- The JavaScript `%` operator on numbers: `a % b = a - b * trunc (a / b)`
(remainder with the sign of the dividend). -/
noncomputable def jsMod (a b : ℝ) : ℝ :=
  a - b * (rtrunc (a / b) : ℝ)

/-- `Math.atan2 y x`: angle of the point `(x, y)` in `(-π, π]`, with
`atan2 0 0 = 0` (the signed-zero distinctions of IEEE-754 collapse in `ℝ`). -/
noncomputable def jsAtan2 (y x : ℝ) : ℝ :=
  if 0 < x then Real.arctan (y / x)
  else if x < 0 ∧ 0 ≤ y then Real.arctan (y / x) + Real.pi
  else if x < 0 ∧ y < 0 then Real.arctan (y / x) - Real.pi
  else if x = 0 ∧ 0 < y then Real.pi / 2
  else if x = 0 ∧ y < 0 then -(Real.pi / 2)
  else 0

/-- The per-key normalisation applied by `calculatePrayerTimes`:
`(x % 24 + 24) % 24`. -/
noncomputable def wrap24 (x : ℝ) : ℝ :=
  jsMod (jsMod x 24 + 24) 24

/-- The `date` argument of `calculatePrayerTimes`.  A proper `Date` carries
UTC year / month (1-based, as after `getUTCMonth() + 1` in the source) /
day components; `notADate` stands for an argument that is not a `Date`
object, on which the component access `date.getUTCFullYear()` throws. -/
inductive JSDate where
  | valid (year month day : ℤ)
  | notADate

/-- The pure integer Julian-day-number computation of
`PrayerTimesCalculator.getJulianDate` (prayer-times.js).  `Math.floor` of
an integer quotient is floored integer division `Int.fdiv`. -/
def getJulianDate (year month day : ℤ) : ℤ :=
  let a := Int.fdiv (14 - month) 12
  let y := year + 4800 - a
  let m := month + 12 * a - 3
  day + Int.fdiv (153 * m + 2) 5 + 365 * y + Int.fdiv y 4 - Int.fdiv y 100 +
    Int.fdiv y 400 - 32045

/-- `PrayerTimesCalculator.getJulianDate` including the possibility that the
component access on a non-`Date` argument throws. -/
def getJulianDateE : JSDate → Except Unit ℤ
  | JSDate.valid year month day => Except.ok (getJulianDate year month day)
  | JSDate.notADate => Except.error ()

/-- The `getJulianDate` of `app.js` (used by the Hijri-date fallback):
identical integer arithmetic but the final constant is `32045.5`, so the
result is a half-integer.  Modelled over `ℚ` (the value is exact in
binary floating point). -/
def appGetJulianDate (year month day : ℤ) : ℚ :=
  let a := Int.fdiv (14 - month) 12
  let y := year + 4800 - a
  let m := month + 12 * a - 3
  (day : ℚ) + (Int.fdiv (153 * m + 2) 5 : ℤ) + 365 * (y : ℚ) + (Int.fdiv y 4 : ℤ) -
    (Int.fdiv y 100 : ℤ) + (Int.fdiv y 400 : ℤ) - 32045.5

/-- The Julian Day Number exactly as the specification states it:
`a = floor((14-month)/12); y = year+4800-a; m = month+12a-3;`
`JDN = day + floor((153m+2)/5) + 365y + floor(y/4) - floor(y/100) + floor(y/400) - 32045`.
This definition follows the words of the spec, for comparison with the two
source functions. -/
def specJulianDayNumber (year month day : ℤ) : ℤ :=
  let a := Int.fdiv (14 - month) 12
  let y := year + 4800 - a
  let m := month + 12 * a - 3
  day + Int.fdiv (153 * m + 2) 5 + 365 * y + Int.fdiv y 4 - Int.fdiv y 100 +
    Int.fdiv y 400 - 32045

/-- Modelled from the spec: the timezone-name → offset resolver.  The source function
`getTimezoneOffset` interrogates platform machinery (`Intl.DateTimeFormat`
and `new Date()`, the wall clock at the moment of invocation), which is
outside the repository; the spec lists "a timezone name → offset resolver"
as an external collaborator.  `resolve` returns the offset in hours the
platform reports for the name at that moment, or `none` when the lookup
throws; the `catch` branch of the source returns `5.5`. -/
def getTimezoneOffset (resolve : String → Option ℝ) (timezone : String) : ℝ :=
  match resolve timezone with
  | some offsetHours => offsetHours
  | none => 5.5

/-- `PrayerTimesCalculator.calculateSolarTime`.  All `Math.sin`/`Math.cos`
arguments are multiplied by `π / 180` in the source; `% 360` is `jsMod`.
Note the source divides `getTimezoneOffset` (already in hours) by 60. -/
noncomputable def calculateSolarTime (resolve : String → Option ℝ)
    (julianDate : ℤ) (longitude : ℝ) (timezone : String) : ℝ :=
  let D : ℝ := (julianDate : ℝ) - 2451545.0
  let g := jsMod (357.529 + 0.98560028 * D) 360
  let q := jsMod (280.459 + 0.98564736 * D) 360
  let L := jsMod (q + 1.915 * Real.sin (g * Real.pi / 180) +
    0.020 * Real.sin (2 * g * Real.pi / 180)) 360
  let e := 23.439 - 0.00000036 * D
  let RA := jsAtan2 (Real.cos (e * Real.pi / 180) * Real.sin (L * Real.pi / 180))
    (Real.cos (L * Real.pi / 180)) * 180 / Real.pi / 15
  let EqT := (q / 15 - RA) * 4 / 60
  let longitudeHour := longitude / 15
  let timezoneOffset := getTimezoneOffset resolve timezone / 60
  12 + EqT - longitudeHour + timezoneOffset

/-- `PrayerTimesCalculator.calculateDeclination`.  It re-derives a
Julian-date-like value from `solarTime * 24` and returns
`Math.asin(...) * 180 / Math.PI`, i.e. a value scaled to degrees. -/
noncomputable def calculateDeclination (solarTime : ℝ) : ℝ :=
  let D := solarTime * 24 - 2451545.0
  let g := jsMod (357.529 + 0.98560028 * D) 360
  let q := jsMod (280.459 + 0.98564736 * D) 360
  let L := jsMod (q + 1.915 * Real.sin (g * Real.pi / 180) +
    0.020 * Real.sin (2 * g * Real.pi / 180)) 360
  let e := 23.439 - 0.00000036 * D
  Real.arcsin (Real.sin (e * Real.pi / 180) * Real.sin (L * Real.pi / 180)) * 180 / Real.pi

/-- The `cosAngle` local of `calculateFajr`: note the source passes
`declination` (the degrees-scaled output of `calculateDeclination`)
directly to `Math.cos`, without a `* Math.PI / 180` conversion. -/
noncomputable def fajrCosAngle (solarTime latitude fajrAngle : ℝ) : ℝ :=
  -Real.sin (fajrAngle * Real.pi / 180) /
    (Real.cos (latitude * Real.pi / 180) * Real.cos (calculateDeclination solarTime))

/-- `PrayerTimesCalculator.calculateFajr`. -/
noncomputable def calculateFajr (solarTime latitude fajrAngle : ℝ) : ℝ :=
  let cosAngle := fajrCosAngle solarTime latitude fajrAngle
  if 1 < |cosAngle| then solarTime - 1.5
  else
    let hourAngle := Real.arccos cosAngle * 180 / Real.pi
    solarTime - hourAngle / 15

/-- The `cosAngle` local of `calculateSunrise` (twilight angle 0). -/
noncomputable def sunriseCosAngle (solarTime latitude : ℝ) : ℝ :=
  -Real.sin (0 * Real.pi / 180) /
    (Real.cos (latitude * Real.pi / 180) * Real.cos (calculateDeclination solarTime))

/-- `PrayerTimesCalculator.calculateSunrise`. -/
noncomputable def calculateSunrise (solarTime latitude : ℝ) : ℝ :=
  let cosAngle := sunriseCosAngle solarTime latitude
  if 1 < |cosAngle| then solarTime
  else
    let hourAngle := Real.arccos cosAngle * 180 / Real.pi
    solarTime - hourAngle / 15

/-- `PrayerTimesCalculator.calculateDhuhr`: the apparent solar time itself. -/
noncomputable def calculateDhuhr (solarTime : ℝ) : ℝ :=
  solarTime

/-- The `cosAngle` local of `calculateAsr`.  The source multiplies the
(already degrees-scaled) declination by `180 / π` once more inside
`tanAngle`, and passes the raw declination to `Math.sin`. -/
noncomputable def asrCosAngle (solarTime latitude asrFactor : ℝ) : ℝ :=
  let declination := calculateDeclination solarTime
  let tanAngle := |Real.tan ((latitude - declination * 180 / Real.pi) * Real.pi / 180)|
  let shadowAngle := Real.arctan (1 / (asrFactor + tanAngle))
  (Real.sin shadowAngle - Real.sin (latitude * Real.pi / 180) * Real.sin declination) /
    (Real.cos (latitude * Real.pi / 180) * Real.cos declination)

/-- `PrayerTimesCalculator.calculateAsr`. -/
noncomputable def calculateAsr (solarTime latitude asrFactor : ℝ) : ℝ :=
  let cosAngle := asrCosAngle solarTime latitude asrFactor
  if 1 < |cosAngle| then solarTime + 2
  else
    let hourAngle := Real.arccos cosAngle * 180 / Real.pi
    solarTime + hourAngle / 15

/-- The `cosAngle` local of `calculateMaghrib` (twilight angle 0). -/
noncomputable def maghribCosAngle (solarTime latitude : ℝ) : ℝ :=
  -Real.sin (0 * Real.pi / 180) /
    (Real.cos (latitude * Real.pi / 180) * Real.cos (calculateDeclination solarTime))

/-- `PrayerTimesCalculator.calculateMaghrib`. -/
noncomputable def calculateMaghrib (solarTime latitude : ℝ) : ℝ :=
  let cosAngle := maghribCosAngle solarTime latitude
  if 1 < |cosAngle| then solarTime
  else
    let hourAngle := Real.arccos cosAngle * 180 / Real.pi
    solarTime + hourAngle / 15

/-- The `cosAngle` local of `calculateIsha` (same form as Fajr:
`-Math.sin(ishaAngle * π / 180)` in the numerator). -/
noncomputable def ishaCosAngle (solarTime latitude ishaAngle : ℝ) : ℝ :=
  -Real.sin (ishaAngle * Real.pi / 180) /
    (Real.cos (latitude * Real.pi / 180) * Real.cos (calculateDeclination solarTime))

/-- `PrayerTimesCalculator.calculateIsha`. -/
noncomputable def calculateIsha (solarTime latitude ishaAngle : ℝ) : ℝ :=
  let cosAngle := ishaCosAngle solarTime latitude ishaAngle
  if 1 < |cosAngle| then solarTime + 1.5
  else
    let hourAngle := Real.arccos cosAngle * 180 / Real.pi
    solarTime + hourAngle / 15

/-- The constructor-initialised `methodParams` table:
pairs `(fajrAngle, ishaAngle)`. -/
def methodParams : String → Option (ℝ × ℝ)
  | "MWL" => some (18, 17)
  | "ISNA" => some (15, 15)
  | "Egypt" => some (19.5, 17.5)
  | "Makkah" => some (18.5, 90)
  | "Karachi" => some (18, 18)
  | "Tehran" => some (17.7, 14)
  | _ => none

/-- `this.methodParams[method]?.fajrAngle || 18`.  Every angle stored in the
table is nonzero, so `|| 18` fires exactly when the method is unknown. -/
def lookupFajrAngle (method : String) : ℝ :=
  match methodParams method with
  | some p => p.1
  | none => 18

/-- `this.methodParams[method]?.ishaAngle || 18`. -/
def lookupIshaAngle (method : String) : ℝ :=
  match methodParams method with
  | some p => p.2
  | none => 18

/-- The six-entry mapping returned by `calculatePrayerTimes`. -/
structure Times where
  fajr : ℝ
  sunrise : ℝ
  dhuhr : ℝ
  asr : ℝ
  maghrib : ℝ
  isha : ℝ

/-- The all-zero mapping returned by the `catch` branch. -/
def zeroTimes : Times :=
  { fajr := 0, sunrise := 0, dhuhr := 0, asr := 0, maghrib := 0, isha := 0 }

/-- The body of the `try` block of `calculatePrayerTimes`: Julian date,
solar time, the six solvers, then the per-key `(x % 24 + 24) % 24`
normalisation.  The only fallible step is the date-component access. -/
noncomputable def calculatePrayerTimesCore (resolve : String → Option ℝ)
    (date : JSDate) (latitude longitude : ℝ) (timezone method madhab : String) :
    Except Unit Times :=
  match getJulianDateE date with
  | Except.error e => Except.error e
  | Except.ok julianDate =>
    let localTime := calculateSolarTime resolve julianDate longitude timezone
    let fajrAngle := lookupFajrAngle method
    let ishaAngle := lookupIshaAngle method
    let asrFactor : ℝ := if madhab = "Hanafi" then 2 else 1
    Except.ok
      { fajr := wrap24 (calculateFajr localTime latitude fajrAngle)
        sunrise := wrap24 (calculateSunrise localTime latitude)
        dhuhr := wrap24 (calculateDhuhr localTime)
        asr := wrap24 (calculateAsr localTime latitude asrFactor)
        maghrib := wrap24 (calculateMaghrib localTime latitude)
        isha := wrap24 (calculateIsha localTime latitude ishaAngle) }

/-- `PrayerTimesCalculator.calculatePrayerTimes`: the `try`/`catch`
orchestration; any internal throw yields the all-zero mapping. -/
noncomputable def calculatePrayerTimes (resolve : String → Option ℝ)
    (date : JSDate) (latitude longitude : ℝ) (timezone method madhab : String) :
    Times :=
  match calculatePrayerTimesCore resolve date latitude longitude timezone method madhab with
  | Except.ok times => times
  | Except.error _ => zeroTimes

/-- The range invariant of the spec: every entry of the mapping lies in the
half-open interval `[0, 24)`. -/
def inDayRange (t : Times) : Prop :=
  (0 ≤ t.fajr ∧ t.fajr < 24) ∧ (0 ≤ t.sunrise ∧ t.sunrise < 24) ∧
    (0 ≤ t.dhuhr ∧ t.dhuhr < 24) ∧ (0 ≤ t.asr ∧ t.asr < 24) ∧
    (0 ≤ t.maghrib ∧ t.maghrib < 24) ∧ (0 ≤ t.isha ∧ t.isha < 24)

/-- The three regex capture groups of the string rendered by `formatTime`
(`"H:MM AM/PM"`): the `\d{1,2}` hour field, the `\d{2}` minute field
(after `padStart` with "0"), and the AM/PM period.  A field value outside
`[0, 99]` cannot be produced by one or two digits (a negative value
renders with a minus sign, three or more digits overflow the pattern),
so such a rendered string fails the regex of `convertTimeToDecimal`. -/
structure TimeString where
  hh : ℤ
  mm : ℤ
  pm : Bool

/-- `PrayerTimesCalculator.formatTime`.  `!decimalTime` rejects `0` (the
`isNaN` guard has no counterpart in `ℝ`); `hours % 12 || 12` is the
truncated remainder (sign of the dividend) with `0` replaced by `12`. -/
noncomputable def formatTime (decimalTime : ℝ) : Option TimeString :=
  if decimalTime = 0 then none
  else
    let hours := ⌊decimalTime⌋
    let minutes := ⌊(decimalTime - (hours : ℝ)) * 60⌋
    let period := 12 ≤ hours
    let displayHours := if Int.tmod hours 12 = 0 then 12 else Int.tmod hours 12
    some { hh := displayHours, mm := minutes, pm := period }

/-- `AdhanApp.convertTimeToDecimal` (app.js) applied to a rendered
`"H:MM AM/PM"` string.  The regex admits one or two digits of hours and
exactly two digits of minutes (hence both fields in `[0, 99]`); on a
match, `PM` adds 12 unless the hour is 12, and `12 AM` becomes 0; on a
failed match the function returns 0. -/
noncomputable def convertTimeToDecimal (t : TimeString) : ℝ :=
  if 0 ≤ t.hh ∧ t.hh ≤ 99 ∧ 0 ≤ t.mm ∧ t.mm ≤ 99 then
    let hours := if t.pm = true ∧ t.hh ≠ 12 then t.hh + 12
      else if t.pm = false ∧ t.hh = 12 then 0
      else t.hh
    (hours : ℝ) + (t.mm : ℝ) / 60
  else 0

/-! ### Basic facts about the JavaScript remainder and the wrap -/

theorem jsMod_bounds_of_nonneg {a b : ℝ} (hb : 0 < b) (ha : 0 ≤ a) :
    0 ≤ jsMod a b ∧ jsMod a b < b := by
  have hq : 0 ≤ a / b := div_nonneg ha hb.le
  have hrw : jsMod a b = b * Int.fract (a / b) := by
    unfold jsMod rtrunc
    rw [if_pos hq, Int.fract]
    field_simp
  constructor
  · rw [hrw]; exact mul_nonneg hb.le (Int.fract_nonneg _)
  · rw [hrw]
    calc b * Int.fract (a / b) < b * 1 :=
          mul_lt_mul_of_pos_left (Int.fract_lt_one _) hb
      _ = b := mul_one b

theorem jsMod_bounds_of_neg {a b : ℝ} (hb : 0 < b) (ha : a < 0) :
    -b < jsMod a b ∧ jsMod a b ≤ 0 := by
  have hq : ¬ 0 ≤ a / b := by
    rw [not_le]
    exact div_neg_of_neg_of_pos ha hb
  have hrw : jsMod a b = a - b * (⌈a / b⌉ : ℝ) := by
    unfold jsMod rtrunc
    rw [if_neg hq]
  have h1 : a / b ≤ (⌈a / b⌉ : ℝ) := Int.le_ceil _
  have h2 : (⌈a / b⌉ : ℝ) < a / b + 1 := Int.ceil_lt_add_one _
  have hb' : b ≠ 0 := ne_of_gt hb
  constructor
  · rw [hrw]
    have := mul_lt_mul_of_pos_left h2 hb
    rw [mul_add, mul_one, mul_div_cancel₀ _ hb'] at this
    linarith
  · rw [hrw]
    have := mul_le_mul_of_nonneg_left h1 hb.le
    rw [mul_div_cancel₀ _ hb'] at this
    linarith

theorem jsMod_exists_int (a b : ℝ) : ∃ k : ℤ, jsMod a b = a + b * (k : ℝ) := by
  refine ⟨-(rtrunc (a / b)), ?_⟩
  unfold jsMod
  push_cast
  ring

/-- Every value produced by the wrap lies in `[0, 24)`. -/
theorem wrap24_mem (x : ℝ) : 0 ≤ wrap24 x ∧ wrap24 x < 24 := by
  have h24 : (0 : ℝ) < 24 := by norm_num
  have hinner : -24 < jsMod x 24 ∧ jsMod x 24 < 24 := by
    rcases le_or_lt 0 x with hx | hx
    · have := jsMod_bounds_of_nonneg h24 hx
      exact ⟨by linarith [this.1], this.2⟩
    · have := jsMod_bounds_of_neg h24 hx
      exact ⟨this.1, by linarith [this.2]⟩
  have hsum : 0 ≤ jsMod x 24 + 24 := by linarith [hinner.1]
  exact jsMod_bounds_of_nonneg h24 hsum

/-- The wrap changes its argument by an integer multiple of 24. -/
theorem wrap24_exists_int (x : ℝ) : ∃ k : ℤ, wrap24 x = x + 24 * (k : ℝ) := by
  obtain ⟨k1, h1⟩ := jsMod_exists_int x 24
  obtain ⟨k2, h2⟩ := jsMod_exists_int (jsMod x 24 + 24) 24
  refine ⟨k1 + k2 + 1, ?_⟩
  unfold wrap24
  rw [h2, h1]
  push_cast
  ring

/-- On `[0, 24)` the wrap is the identity. -/
theorem wrap24_eq_self {x : ℝ} (h0 : 0 ≤ x) (h24 : x < 24) : wrap24 x = x := by
  have hq0 : (0 : ℝ) ≤ x / 24 := div_nonneg h0 (by norm_num)
  have hfl : ⌊x / 24⌋ = 0 := by
    rw [Int.floor_eq_zero_iff]
    constructor
    · exact hq0
    · rw [div_lt_one (by norm_num : (0:ℝ) < 24)]; exact h24
  have hinner : jsMod x 24 = x := by
    unfold jsMod rtrunc
    rw [if_pos hq0, hfl]
    norm_num
  have hq1 : (0 : ℝ) ≤ (x + 24) / 24 := by positivity
  have hfl1 : ⌊(x + 24) / 24⌋ = 1 := by
    rw [Int.floor_eq_iff]
    constructor
    · push_cast
      rw [le_div_iff₀ (by norm_num : (0:ℝ) < 24)]
      linarith
    · push_cast
      rw [div_lt_iff₀ (by norm_num : (0:ℝ) < 24)]
      linarith
  unfold wrap24
  rw [hinner]
  unfold jsMod rtrunc
  rw [if_pos hq1, hfl1]
  norm_num

/-- Shifting the argument by a nonzero amount smaller than a day changes the
wrapped value. -/
theorem wrap24_ne_of_shift {x d : ℝ} (hd : d ≠ 0) (hlt : |d| < 24) :
    wrap24 x ≠ wrap24 (x + d) := by
  obtain ⟨k1, h1⟩ := wrap24_exists_int x
  obtain ⟨k2, h2⟩ := wrap24_exists_int (x + d)
  intro he
  rw [h1, h2] at he
  have hdk : d = 24 * ((k1 - k2 : ℤ) : ℝ) := by push_cast; linarith
  have habs := abs_lt.mp hlt
  have hlow : (-1 : ℝ) < ((k1 - k2 : ℤ) : ℝ) := by rw [hdk] at habs; linarith [habs.1]
  have hhigh : ((k1 - k2 : ℤ) : ℝ) < 1 := by rw [hdk] at habs; linarith [habs.2]
  have : k1 - k2 = 0 := by
    have h1' : (-1 : ℤ) < k1 - k2 := by exact_mod_cast hlow
    have h2' : k1 - k2 < 1 := by exact_mod_cast hhigh
    omega
  apply hd
  rw [hdk, this]
  norm_num

/-! ### Bounding `Math.atan2` and the solar time -/

theorem abs_jsAtan2_le_pi (y x : ℝ) : |jsAtan2 y x| ≤ Real.pi := by
  have hpi : 0 < Real.pi := Real.pi_pos
  have harc : ∀ z : ℝ, |Real.arctan z| < Real.pi / 2 := fun z =>
    abs_lt.mpr ⟨Real.neg_pi_div_two_lt_arctan z, Real.arctan_lt_pi_div_two z⟩
  unfold jsAtan2
  split_ifs with h1 h2 h3 h4 h5
  · have := abs_lt.mp (harc (y / x))
    rw [abs_le]
    constructor <;> linarith [this.1, this.2]
  · have hz : y / x ≤ 0 := div_nonpos_of_nonneg_of_nonpos h2.2 (le_of_lt h2.1)
    have hle : Real.arctan (y / x) ≤ 0 := by
      have := Real.arctan_strictMono.monotone hz
      rw [Real.arctan_zero] at this
      exact this
    have := abs_lt.mp (harc (y / x))
    rw [abs_le]
    constructor <;> linarith [this.1, this.2]
  · have hz : 0 ≤ y / x := le_of_lt (div_pos_iff.mpr (Or.inr ⟨h3.2, h3.1⟩))
    have hge : 0 ≤ Real.arctan (y / x) := by
      have := Real.arctan_strictMono.monotone hz
      rw [Real.arctan_zero] at this
      exact this
    have := abs_lt.mp (harc (y / x))
    rw [abs_le]
    constructor <;> linarith [this.1, this.2]
  · rw [abs_le]; constructor <;> linarith
  · rw [abs_le]; constructor <;> linarith
  · rw [abs_le]; constructor <;> linarith [le_refl (0:ℝ)]

/-- Crude but unconditional bounds on the apparent solar time: whenever the
mean-longitude accumulator is nonnegative, the equation of time lies in
`(-0.8, 2.4)`, so the solar time stays within those bounds of
`12 - longitude/15 + offset/60`. -/
theorem calculateSolarTime_bounds (resolve : String → Option ℝ) (julianDate : ℤ)
    (longitude : ℝ) (timezone : String)
    (hq : 0 ≤ 280.459 + 0.98564736 * ((julianDate : ℝ) - 2451545.0)) :
    11.2 - longitude / 15 + getTimezoneOffset resolve timezone / 60 ≤
        calculateSolarTime resolve julianDate longitude timezone ∧
      calculateSolarTime resolve julianDate longitude timezone <
        14.4 - longitude / 15 + getTimezoneOffset resolve timezone / 60 := by
  have h360 : (0 : ℝ) < 360 := by norm_num
  have hqb := jsMod_bounds_of_nonneg h360 hq
  have hpi : 0 < Real.pi := Real.pi_pos
  set q := jsMod (280.459 + 0.98564736 * ((julianDate : ℝ) - 2451545.0)) 360 with hqdef
  set A := jsAtan2
    (Real.cos ((23.439 - 0.00000036 * ((julianDate : ℝ) - 2451545.0)) * Real.pi / 180) *
      Real.sin ((jsMod (q + 1.915 * Real.sin ((jsMod (357.529 + 0.98560028 * ((julianDate : ℝ) - 2451545.0)) 360) * Real.pi / 180) +
        0.020 * Real.sin (2 * (jsMod (357.529 + 0.98560028 * ((julianDate : ℝ) - 2451545.0)) 360) * Real.pi / 180)) 360) * Real.pi / 180))
    (Real.cos ((jsMod (q + 1.915 * Real.sin ((jsMod (357.529 + 0.98560028 * ((julianDate : ℝ) - 2451545.0)) 360) * Real.pi / 180) +
        0.020 * Real.sin (2 * (jsMod (357.529 + 0.98560028 * ((julianDate : ℝ) - 2451545.0)) 360) * Real.pi / 180)) 360) * Real.pi / 180)) with hAdef
  have hA : |A| ≤ Real.pi := abs_jsAtan2_le_pi _ _
  have hRA : |A * 180 / Real.pi / 15| ≤ 12 := by
    rw [abs_div, abs_div, abs_mul]
    rw [abs_of_pos hpi, abs_of_pos (by norm_num : (0:ℝ) < 180),
      abs_of_pos (by norm_num : (0:ℝ) < 15)]
    have h1 : |A| * 180 / Real.pi / 15 ≤ Real.pi * 180 / Real.pi / 15 := by gcongr
    have h2 : Real.pi * 180 / Real.pi / 15 = 12 := by field_simp; ring
    linarith
  have hRA' := abs_le.mp hRA
  show 11.2 - longitude / 15 + getTimezoneOffset resolve timezone / 60 ≤
      12 + (q / 15 - A * 180 / Real.pi / 15) * 4 / 60 - longitude / 15 +
        getTimezoneOffset resolve timezone / 60 ∧
    12 + (q / 15 - A * 180 / Real.pi / 15) * 4 / 60 - longitude / 15 +
        getTimezoneOffset resolve timezone / 60 <
      14.4 - longitude / 15 + getTimezoneOffset resolve timezone / 60
  have hq0 : 0 ≤ q := hqb.1
  have hq360 : q < 360 := hqb.2
  constructor
  · nlinarith [hRA'.1, hRA'.2]
  · nlinarith [hRA'.1, hRA'.2]

/-! ### Evaluating the solvers -/

/-- The numerator of the sunrise `cosAngle` is `-Math.sin(0)`, so the whole
quotient is zero for every latitude and date. -/
theorem sunriseCosAngle_eq_zero (solarTime latitude : ℝ) :
    sunriseCosAngle solarTime latitude = 0 := by
  unfold sunriseCosAngle
  simp

theorem maghribCosAngle_eq_zero (solarTime latitude : ℝ) :
    maghribCosAngle solarTime latitude = 0 := by
  unfold maghribCosAngle
  simp

/-- `acos 0` is 90 degrees, i.e. six hours after the `/15`. -/
theorem arccos_zero_hours : Real.arccos 0 * 180 / Real.pi / 15 = 6 := by
  rw [Real.arccos_zero]
  field_simp
  ring

/-- In the real-number model the sunrise solver always returns
`solarTime - 6`. -/
theorem calculateSunrise_eq (solarTime latitude : ℝ) :
    calculateSunrise solarTime latitude = solarTime - 6 := by
  unfold calculateSunrise
  rw [sunriseCosAngle_eq_zero]
  rw [if_neg (by norm_num)]
  dsimp only
  rw [arccos_zero_hours]

/-- In the real-number model the maghrib solver always returns
`solarTime + 6`. -/
theorem calculateMaghrib_eq (solarTime latitude : ℝ) :
    calculateMaghrib solarTime latitude = solarTime + 6 := by
  unfold calculateMaghrib
  rw [maghribCosAngle_eq_zero]
  rw [if_neg (by norm_num)]
  dsimp only
  rw [arccos_zero_hours]

/-- A solar time whose derived `D` value makes the obliquity term `e`
vanish exactly: `202679635 / 72 * 24 - 2451545 = 195325000 / 3` and
`23.439 - 0.00000036 * (195325000 / 3) = 0`.  At this point the
declination is exactly zero, whatever the (transcendental) value of the
ecliptic-longitude term. -/
theorem calculateDeclination_special :
    calculateDeclination (202679635 / 72 : ℝ) = 0 := by
  unfold calculateDeclination
  rw [show (202679635 / 72 : ℝ) * 24 - 2451545.0 = 195325000 / 3 by norm_num]
  dsimp only
  rw [show (23.439 : ℝ) - 0.00000036 * (195325000 / 3) = 0 by norm_num]
  simp

/-- Unfolding `calculatePrayerTimes` on a well-formed date: the `try`
block succeeds and each entry is the wrapped solver output. -/
theorem calculatePrayerTimes_valid (resolve : String → Option ℝ)
    (year month day : ℤ) (latitude longitude : ℝ) (timezone method madhab : String) :
    calculatePrayerTimes resolve (JSDate.valid year month day) latitude longitude
        timezone method madhab =
      { fajr := wrap24 (calculateFajr
          (calculateSolarTime resolve (getJulianDate year month day) longitude timezone)
          latitude (lookupFajrAngle method))
        sunrise := wrap24 (calculateSunrise
          (calculateSolarTime resolve (getJulianDate year month day) longitude timezone)
          latitude)
        dhuhr := wrap24 (calculateDhuhr
          (calculateSolarTime resolve (getJulianDate year month day) longitude timezone))
        asr := wrap24 (calculateAsr
          (calculateSolarTime resolve (getJulianDate year month day) longitude timezone)
          latitude (if madhab = "Hanafi" then 2 else 1))
        maghrib := wrap24 (calculateMaghrib
          (calculateSolarTime resolve (getJulianDate year month day) longitude timezone)
          latitude)
        isha := wrap24 (calculateIsha
          (calculateSolarTime resolve (getJulianDate year month day) longitude timezone)
          latitude (lookupIshaAngle method)) } := rfl

/-- At latitude 89° with an 18° twilight angle the hour-angle equation has no
real solution whatever the date: `sin 18° > cos 89° ≥ cos 89° · |cos dec|`,
so the quotient exceeds 1 in absolute value (provided the declination term
does not vanish, which would zero the denominator in the real model). -/
theorem high_latitude_no_solution {cd : ℝ} (hcd : cd ≠ 0) (hcd1 : |cd| ≤ 1) :
    1 < |-Real.sin (18 * Real.pi / 180) / (Real.cos (89 * Real.pi / 180) * cd)| := by
  have hpi : 0 < Real.pi := Real.pi_pos
  have h18 : (18 : ℝ) * Real.pi / 180 = Real.pi / 10 := by ring
  have h89 : Real.cos (89 * Real.pi / 180) = Real.sin (Real.pi / 180) := by
    rw [show Real.pi / 180 = Real.pi / 2 - 89 * Real.pi / 180 by ring,
      Real.sin_pi_div_two_sub]
  have hs180 : 0 < Real.sin (Real.pi / 180) :=
    Real.sin_pos_of_pos_of_lt_pi (by linarith) (by linarith)
  have hs10 : 0 < Real.sin (Real.pi / 10) :=
    Real.sin_pos_of_pos_of_lt_pi (by linarith) (by linarith)
  have hmono : Real.sin (Real.pi / 180) < Real.sin (Real.pi / 10) := by
    apply Real.strictMonoOn_sin
    · constructor <;> [linarith; linarith]
    · constructor <;> [linarith; linarith]
    · linarith
  have hcdpos : 0 < |cd| := abs_pos.mpr hcd
  rw [h18, h89, abs_div, abs_neg, abs_mul]
  rw [abs_of_pos hs10, abs_of_pos hs180]
  rw [lt_div_iff₀ (by positivity)]
  calc 1 * (Real.sin (Real.pi / 180) * |cd|) = Real.sin (Real.pi / 180) * |cd| :=
        one_mul _
    _ ≤ Real.sin (Real.pi / 180) * 1 :=
        mul_le_mul_of_nonneg_left hcd1 hs180.le
    _ = Real.sin (Real.pi / 180) := mul_one _
    _ < Real.sin (Real.pi / 10) := hmono

/-- With the Makkah `ishaAngle` of 90, latitude 60 and the declination-zero
solar time, the Isha `cosAngle` is exactly `-2`. -/
theorem ishaCosAngle_makkah_special :
    ishaCosAngle (202679635 / 72 : ℝ) 60 90 = -2 := by
  unfold ishaCosAngle
  rw [calculateDeclination_special, Real.cos_zero,
    show (90 : ℝ) * Real.pi / 180 = Real.pi / 2 by ring,
    show (60 : ℝ) * Real.pi / 180 = Real.pi / 3 by ring,
    Real.sin_pi_div_two, Real.cos_pi_div_three]
  norm_num

/-! ### The claims -/

/-- Claim C1: for every input (date, latitude, longitude, timezone, method,
madhab), every value in the six-entry mapping returned by
`calculatePrayerTimes` lies in the half-open interval `[0, 24)`: each solver
result is wrapped by `((x % 24) + 24) % 24` before being returned, however far
outside the range the intermediate arithmetic pushed it (and the `catch`
branch returns all zeros, which also lie in the interval). -/
theorem claim_C1_range (resolve : String → Option ℝ) (date : JSDate)
    (latitude longitude : ℝ) (timezone method madhab : String) :
    inDayRange
      (calculatePrayerTimes resolve date latitude longitude timezone method madhab) := by
  cases date with
  | notADate =>
      show inDayRange zeroTimes
      unfold inDayRange zeroTimes
      norm_num
  | valid year month day =>
      rw [calculatePrayerTimes_valid]
      unfold inDayRange
      exact ⟨wrap24_mem _, wrap24_mem _, wrap24_mem _, wrap24_mem _,
        wrap24_mem _, wrap24_mem _⟩

/-- Claim C2: `calculatePrayerTimes` never lets an exception past its public
boundary: whenever the body of its `try` block (`calculatePrayerTimesCore`)
fails — the only fallible step being the component access on a malformed
date — the function returns the all-zero six-entry mapping as an
"unavailable" sentinel, and otherwise it returns exactly the successful
result; in particular a non-`Date` argument yields the all-zero mapping. -/
theorem claim_C2_never_throws :
    (∀ (resolve : String → Option ℝ) (date : JSDate) (latitude longitude : ℝ)
        (timezone method madhab : String),
      (calculatePrayerTimesCore resolve date latitude longitude timezone method madhab =
            Except.error () ∧
          calculatePrayerTimes resolve date latitude longitude timezone method madhab =
            zeroTimes) ∨
        (∃ t, calculatePrayerTimesCore resolve date latitude longitude timezone method madhab =
            Except.ok t ∧
          calculatePrayerTimes resolve date latitude longitude timezone method madhab = t)) ∧
    (∀ (resolve : String → Option ℝ) (latitude longitude : ℝ)
        (timezone method madhab : String),
      calculatePrayerTimes resolve JSDate.notADate latitude longitude timezone method madhab =
        zeroTimes) := by
  constructor
  · intro resolve date latitude longitude timezone method madhab
    cases date with
    | notADate => exact Or.inl ⟨rfl, rfl⟩
    | valid year month day => exact Or.inr ⟨_, rfl, rfl⟩
  · intro resolve latitude longitude timezone method madhab
    rfl

/-- Claim C7: the 0° twilight angle makes the numerator `-sin 0` exactly zero,
so `cosHourAngle` is 0 and `acos` gives exactly 90° (6 hours) independent of
latitude, declination and date: for every solar time and every latitude with
`cos(lat)·cos(declination)` nonzero, `calculateSunrise` returns exactly
`solarTime - 6` and `calculateMaghrib` exactly `solarTime + 6`. -/
theorem claim_C7_twelve_hour_day (solarTime latitude : ℝ)
    (_hden : Real.cos (latitude * Real.pi / 180) *
      Real.cos (calculateDeclination solarTime) ≠ 0) :
    calculateSunrise solarTime latitude = solarTime - 6 ∧
      calculateMaghrib solarTime latitude = solarTime + 6 :=
  ⟨calculateSunrise_eq _ _, calculateMaghrib_eq _ _⟩

/-- Witness for C7 at the solar time `202679635 / 72` (where the declination is
exactly zero) and latitude 0, where the denominator is exactly 1. -/
theorem claim_C7_twelve_hour_day_witness :
    Real.cos ((0 : ℝ) * Real.pi / 180) *
        Real.cos (calculateDeclination (202679635 / 72 : ℝ)) ≠ 0 ∧
      (calculateSunrise (202679635 / 72 : ℝ) 0 = 202679635 / 72 - 6 ∧
        calculateMaghrib (202679635 / 72 : ℝ) 0 = 202679635 / 72 + 6) := by
  have hden : Real.cos ((0 : ℝ) * Real.pi / 180) *
      Real.cos (calculateDeclination (202679635 / 72 : ℝ)) ≠ 0 := by
    rw [calculateDeclination_special]
    norm_num
  exact ⟨hden, claim_C7_twelve_hour_day (202679635 / 72 : ℝ) 0 hden⟩

/-- Claim C5: whenever the hour-angle equation has no real solution
(`|cosHourAngle| > 1`), the Fajr solver returns `solarTime - 1.5` and the
Isha solver `solarTime + 1.5` instead of failing; and at latitude 89° with
the 18° twilight angle both solvers take that fallback branch for every
solar time whose declination term does not vanish (the "summer date" instance of the spec is a special case). -/
theorem claim_C5_fallback_offsets :
    (∀ solarTime latitude fajrAngle : ℝ,
        1 < |fajrCosAngle solarTime latitude fajrAngle| →
      calculateFajr solarTime latitude fajrAngle = solarTime - 1.5) ∧
    (∀ solarTime latitude ishaAngle : ℝ,
        1 < |ishaCosAngle solarTime latitude ishaAngle| →
      calculateIsha solarTime latitude ishaAngle = solarTime + 1.5) ∧
    (∀ solarTime : ℝ, Real.cos (calculateDeclination solarTime) ≠ 0 →
      calculateFajr solarTime 89 18 = solarTime - 1.5 ∧
        calculateIsha solarTime 89 18 = solarTime + 1.5) := by
  have hfajr : ∀ solarTime latitude fajrAngle : ℝ,
      1 < |fajrCosAngle solarTime latitude fajrAngle| →
      calculateFajr solarTime latitude fajrAngle = solarTime - 1.5 := by
    intro solarTime latitude fajrAngle h
    unfold calculateFajr
    rw [if_pos h]
  have hisha : ∀ solarTime latitude ishaAngle : ℝ,
      1 < |ishaCosAngle solarTime latitude ishaAngle| →
      calculateIsha solarTime latitude ishaAngle = solarTime + 1.5 := by
    intro solarTime latitude ishaAngle h
    unfold calculateIsha
    rw [if_pos h]
  refine ⟨hfajr, hisha, ?_⟩
  intro solarTime hcd
  have hcd1 : |Real.cos (calculateDeclination solarTime)| ≤ 1 :=
    Real.abs_cos_le_one _
  have hf : 1 < |fajrCosAngle solarTime 89 18| := by
    unfold fajrCosAngle
    exact high_latitude_no_solution hcd hcd1
  have hi : 1 < |ishaCosAngle solarTime 89 18| := by
    unfold ishaCosAngle
    exact high_latitude_no_solution hcd hcd1
  exact ⟨hfajr solarTime 89 18 hf, hisha solarTime 89 18 hi⟩

/-- Witness for C5 at the declination-zero solar time `202679635 / 72` and
latitude 89: each of the three hypotheses is discharged concretely (the Fajr
and Isha `cosAngle` values exceed 1 in absolute value, and `cos` of the
declination is 1). -/
theorem claim_C5_fallback_offsets_witness :
    (1 < |fajrCosAngle (202679635 / 72 : ℝ) 89 18| ∧
      calculateFajr (202679635 / 72 : ℝ) 89 18 = 202679635 / 72 - 1.5) ∧
    (1 < |ishaCosAngle (202679635 / 72 : ℝ) 89 18| ∧
      calculateIsha (202679635 / 72 : ℝ) 89 18 = 202679635 / 72 + 1.5) ∧
    (Real.cos (calculateDeclination (202679635 / 72 : ℝ)) ≠ 0 ∧
      (calculateFajr (202679635 / 72 : ℝ) 89 18 = 202679635 / 72 - 1.5 ∧
        calculateIsha (202679635 / 72 : ℝ) 89 18 = 202679635 / 72 + 1.5)) := by
  have hcd : Real.cos (calculateDeclination (202679635 / 72 : ℝ)) ≠ 0 := by
    rw [calculateDeclination_special, Real.cos_zero]
    norm_num
  have hcd1 : |Real.cos (calculateDeclination (202679635 / 72 : ℝ))| ≤ 1 :=
    Real.abs_cos_le_one _
  have hf : 1 < |fajrCosAngle (202679635 / 72 : ℝ) 89 18| := by
    unfold fajrCosAngle
    exact high_latitude_no_solution hcd hcd1
  have hi : 1 < |ishaCosAngle (202679635 / 72 : ℝ) 89 18| := by
    unfold ishaCosAngle
    exact high_latitude_no_solution hcd hcd1
  exact ⟨⟨hf, claim_C5_fallback_offsets.1 (202679635 / 72 : ℝ) 89 18 hf⟩,
    ⟨hi, claim_C5_fallback_offsets.2.1 (202679635 / 72 : ℝ) 89 18 hi⟩,
    ⟨hcd, claim_C5_fallback_offsets.2.2 (202679635 / 72 : ℝ) hcd⟩⟩

/-- Claim C4 counterexample: with the Makkah parameters (`ishaAngle = 90`),
at the declination-zero solar time `202679635 / 72` and latitude 60 the
engine returns an Isha time 4.5 hours BEFORE Maghrib (`solarTime + 1.5`
against `solarTime + 6`): `sin 90° = 1` makes `|cosHourAngle| = 2 > 1`, so
the fallback fires — Isha is nowhere near Maghrib. -/
theorem claim_C4_counterexample :
    calculateMaghrib (202679635 / 72 : ℝ) 60 -
        calculateIsha (202679635 / 72 : ℝ) 60 90 = 4.5 := by
  have hisha : calculateIsha (202679635 / 72 : ℝ) 60 90 = 202679635 / 72 + 1.5 := by
    unfold calculateIsha
    rw [ishaCosAngle_makkah_special]
    rw [if_pos (by norm_num : (1 : ℝ) < |(-2 : ℝ)|)]
  rw [calculateMaghrib_eq, hisha]
  norm_num

/-- Claim C4 amended: the engine does treat the Makkah `ishaAngle = 90` as a
literal angle, but the equation uses `sin`, not `cos`: `sin 90° = 1`, so
whenever `0 < cos(lat)·cos(dec) < 1` the quotient exceeds 1 in absolute
value and the Isha solver returns the fallback `solarTime + 1.5`, which is
4.5 hours before the Maghrib value `solarTime + 6` — not `Isha ≈ Maghrib`. -/
theorem claim_C4_makkah_isha (solarTime latitude : ℝ)
    (hpos : 0 < Real.cos (latitude * Real.pi / 180) *
      Real.cos (calculateDeclination solarTime))
    (hlt : Real.cos (latitude * Real.pi / 180) *
      Real.cos (calculateDeclination solarTime) < 1) :
    calculateIsha solarTime latitude 90 = solarTime + 1.5 ∧
      calculateMaghrib solarTime latitude = solarTime + 6 := by
  constructor
  · have hcos : ishaCosAngle solarTime latitude 90 =
        -(1 / (Real.cos (latitude * Real.pi / 180) *
          Real.cos (calculateDeclination solarTime))) := by
      unfold ishaCosAngle
      rw [show (90 : ℝ) * Real.pi / 180 = Real.pi / 2 by ring, Real.sin_pi_div_two]
      rw [neg_div]
    have habs : 1 < |ishaCosAngle solarTime latitude 90| := by
      rw [hcos, abs_neg, abs_div, abs_one, abs_of_pos hpos]
      exact (one_lt_div hpos).mpr (by linarith [abs_of_pos hpos])
    unfold calculateIsha
    rw [if_pos habs]
  · exact calculateMaghrib_eq _ _

/-- Witness for the amended statement of C4 at the declination-zero solar time and
latitude 60, where `cos(lat)·cos(dec) = 1/2` exactly. -/
theorem claim_C4_makkah_isha_witness :
    (0 < Real.cos ((60 : ℝ) * Real.pi / 180) *
        Real.cos (calculateDeclination (202679635 / 72 : ℝ)) ∧
      Real.cos ((60 : ℝ) * Real.pi / 180) *
        Real.cos (calculateDeclination (202679635 / 72 : ℝ)) < 1) ∧
    (calculateIsha (202679635 / 72 : ℝ) 60 90 = 202679635 / 72 + 1.5 ∧
      calculateMaghrib (202679635 / 72 : ℝ) 60 = 202679635 / 72 + 6) := by
  have hc : Real.cos ((60 : ℝ) * Real.pi / 180) *
      Real.cos (calculateDeclination (202679635 / 72 : ℝ)) = 1 / 2 := by
    rw [calculateDeclination_special, Real.cos_zero,
      show (60 : ℝ) * Real.pi / 180 = Real.pi / 3 by ring, Real.cos_pi_div_three]
    norm_num
  have hpos : 0 < Real.cos ((60 : ℝ) * Real.pi / 180) *
      Real.cos (calculateDeclination (202679635 / 72 : ℝ)) := by
    rw [hc]; norm_num
  have hlt : Real.cos ((60 : ℝ) * Real.pi / 180) *
      Real.cos (calculateDeclination (202679635 / 72 : ℝ)) < 1 := by
    rw [hc]; norm_num
  exact ⟨⟨hpos, hlt⟩, claim_C4_makkah_isha (202679635 / 72 : ℝ) 60 hpos hlt⟩

/-- The `getJulianDate` of `app.js` differs from the standard Julian Day
Number by exactly one half, its final constant being `32045.5`. -/
theorem appGetJulianDate_eq_spec_sub_half (year month day : ℤ) :
    appGetJulianDate year month day = (specJulianDayNumber year month day : ℚ) - 1 / 2 := by
  unfold appGetJulianDate specJulianDayNumber
  dsimp only
  push_cast
  ring_nf

/-- Claim C10 counterexample: the `getJulianDate` of `app.js`, evaluated at
2000-01-01, returns `2451544.5`, not the standard Gregorian Julian Day Number
`2451545` demanded by the claim — its final constant is `32045.5`. -/
theorem claim_C10_counterexample :
    appGetJulianDate 2000 1 1 ≠ (specJulianDayNumber 2000 1 1 : ℚ) := by
  rw [appGetJulianDate_eq_spec_sub_half]
  intro h
  have h5 : specJulianDayNumber 2000 1 1 = 2451545 := by decide
  rw [h5] at h
  norm_num at h

/-- Claim C10 amended: the engine `getJulianDate` (prayer-times.js) returns
exactly the standard Gregorian Julian Day Number of the formula in the claim for
every proleptic Gregorian date, while the `getJulianDate` of `app.js` returns
that Julian Day Number minus one half. -/
theorem claim_C10_amended (year month day : ℤ) :
    getJulianDate year month day = specJulianDayNumber year month day ∧
      appGetJulianDate year month day = (specJulianDayNumber year month day : ℚ) - 1 / 2 :=
  ⟨rfl, appGetJulianDate_eq_spec_sub_half year month day⟩

/-- The solar time consults the platform resolver only on the given timezone
name. -/
theorem calculateSolarTime_resolver_congr (r r' : String → Option ℝ)
    (julianDate : ℤ) (longitude : ℝ) (timezone : String)
    (h : r timezone = r' timezone) :
    calculateSolarTime r julianDate longitude timezone =
      calculateSolarTime r' julianDate longitude timezone := by
  unfold calculateSolarTime getTimezoneOffset
  rw [h]

/-- Changing the resolved offset from `a` to `b` hours shifts the solar time
by exactly `(b - a) / 60` (the source divides the hour offset by 60 again). -/
theorem calculateSolarTime_offset_shift (julianDate : ℤ) (longitude : ℝ)
    (timezone : String) (a b : ℝ) :
    calculateSolarTime (fun _ => some b) julianDate longitude timezone =
      calculateSolarTime (fun _ => some a) julianDate longitude timezone +
        (b - a) / 60 := by
  unfold calculateSolarTime getTimezoneOffset
  dsimp only
  ring

/-- Claim C9 counterexample: the output of `calculatePrayerTimes` depends on
the moment of invocation — `getTimezoneOffset` reads the wall clock through
`new Date()`, so the same six arguments yield different mappings when the
platform reports a different offset for the same timezone name (here 0 h
versus 1 h, a daylight-saving transition): the returned `dhuhr` values
differ. -/
theorem claim_C9_counterexample :
    calculatePrayerTimes (fun _ => some 0) (JSDate.valid 2024 3 20) 60 0
        "Europe/London" "Karachi" "Shafi" ≠
      calculatePrayerTimes (fun _ => some 1) (JSDate.valid 2024 3 20) 60 0
        "Europe/London" "Karachi" "Shafi" := by
  intro h
  have hd := congrArg Times.dhuhr h
  rw [calculatePrayerTimes_valid, calculatePrayerTimes_valid] at hd
  have hd' : wrap24 (calculateSolarTime (fun _ => some 0) (getJulianDate 2024 3 20)
        0 "Europe/London") =
      wrap24 (calculateSolarTime (fun _ => some 0) (getJulianDate 2024 3 20)
        0 "Europe/London" + (1 - 0) / 60) := by
    rw [← calculateSolarTime_offset_shift (getJulianDate 2024 3 20) 0 "Europe/London" 0 1]
    exact hd
  have habs : |((1 : ℝ) - 0) / 60| < 24 := by
    rw [abs_of_nonneg (by norm_num : (0 : ℝ) ≤ ((1 : ℝ) - 0) / 60)]
    norm_num
  exact wrap24_ne_of_shift (by norm_num) habs hd'

/-- Claim C9 amended: `calculatePrayerTimes` is deterministic given its six
arguments AND the answer of the platform for the given timezone name at the
moment of invocation: any two invocations whose resolvers agree on that
name return identical six-entry mappings (the result depends on no other
hidden state). -/
theorem claim_C9_amended (r r' : String → Option ℝ) (date : JSDate)
    (latitude longitude : ℝ) (timezone method madhab : String)
    (h : r timezone = r' timezone) :
    calculatePrayerTimes r date latitude longitude timezone method madhab =
      calculatePrayerTimes r' date latitude longitude timezone method madhab := by
  cases date with
  | notADate => rfl
  | valid year month day =>
      rw [calculatePrayerTimes_valid, calculatePrayerTimes_valid,
        calculateSolarTime_resolver_congr r r' (getJulianDate year month day)
          longitude timezone h]

/-- Witness for the amended statement of C9: two syntactically different resolvers
that agree on `"Asia/Riyadh"` produce identical mappings. -/
theorem claim_C9_amended_witness :
    (fun _ : String => some (3 : ℝ)) "Asia/Riyadh" =
        (fun s : String => if s = "Asia/Riyadh" then some (3 : ℝ) else none)
          "Asia/Riyadh" ∧
      calculatePrayerTimes (fun _ => some 3) (JSDate.valid 2024 6 21) 21.4225 39.8262
          "Asia/Riyadh" "Makkah" "Shafi" =
        calculatePrayerTimes
          (fun s => if s = "Asia/Riyadh" then some (3 : ℝ) else none)
          (JSDate.valid 2024 6 21) 21.4225 39.8262 "Asia/Riyadh" "Makkah" "Shafi" := by
  have h : (fun _ : String => some (3 : ℝ)) "Asia/Riyadh" =
      (fun s : String => if s = "Asia/Riyadh" then some (3 : ℝ) else none)
        "Asia/Riyadh" := by
    simp
  exact ⟨h, claim_C9_amended _ _ _ _ _ _ _ _ h⟩

/-- The 2024 March equinox: `getJulianDate 2024 3 20 = 2460390`, and with
longitude 0 and a resolver reporting offset 0 the apparent solar time lies
in `[11.2, 14.4)`. -/
theorem solarTime_equinox_bounds :
    11.2 ≤ calculateSolarTime (fun _ => some 0) (getJulianDate 2024 3 20) 0 "UTC" ∧
      calculateSolarTime (fun _ => some 0) (getJulianDate 2024 3 20) 0 "UTC" < 14.4 := by
  have h := calculateSolarTime_bounds (fun _ => some 0) (getJulianDate 2024 3 20) 0 "UTC"
    (by
      rw [show getJulianDate 2024 3 20 = 2460390 from by decide]
      norm_num)
  have hoff : getTimezoneOffset (fun _ : String => some (0 : ℝ)) "UTC" = 0 := rfl
  rw [hoff] at h
  norm_num at h
  exact ⟨by linarith [h.1], by linarith [h.2]⟩

/-- With the Makkah isha angle 90 at latitude 60, the Isha solver returns
either the fallback `solarTime + 1.5` (whenever the declination cosine is
nonzero, since then `|cosHourAngle| ≥ 2`) or `solarTime + 6` (in the
degenerate zero-denominator case of the real model) — in both cases no
later than the Maghrib value `solarTime + 6`. -/
theorem calculateIsha_makkah_cases (solarTime : ℝ) :
    calculateIsha solarTime 60 90 = solarTime + 1.5 ∨
      calculateIsha solarTime 60 90 = solarTime + 6 := by
  by_cases hcd : Real.cos (calculateDeclination solarTime) = 0
  · right
    unfold calculateIsha ishaCosAngle
    rw [hcd, mul_zero, div_zero]
    rw [if_neg (by norm_num)]
    dsimp only
    rw [arccos_zero_hours]
  · left
    have habs : 1 < |ishaCosAngle solarTime 60 90| := by
      unfold ishaCosAngle
      rw [show (90 : ℝ) * Real.pi / 180 = Real.pi / 2 by ring, Real.sin_pi_div_two,
        show (60 : ℝ) * Real.pi / 180 = Real.pi / 3 by ring, Real.cos_pi_div_three]
      have hcdpos : 0 < |Real.cos (calculateDeclination solarTime)| := abs_pos.mpr hcd
      have hcd1 : |Real.cos (calculateDeclination solarTime)| ≤ 1 :=
        Real.abs_cos_le_one _
      rw [abs_div, abs_neg, abs_one, abs_mul,
        abs_of_pos (by norm_num : (0 : ℝ) < 1 / 2)]
      rw [lt_div_iff₀ (by positivity)]
      nlinarith
    unfold calculateIsha
    rw [if_pos habs]

/-- Claim C3 counterexample: at the 2024 March equinox (well inside the
equinox season), latitude 60 ∈ [-60, 60], longitude 0, offset 0, method
`Makkah` and madhab `Shafi`, the returned values are NOT strictly
increasing: Maghrib is `solarTime + 6` while Isha is at most that
(`solarTime + 1.5` on the fallback branch), so `maghrib < isha` fails. -/
theorem claim_C3_counterexample :
    ¬ ((calculatePrayerTimes (fun _ => some 0) (JSDate.valid 2024 3 20) 60 0 "UTC"
          "Makkah" "Shafi").maghrib <
        (calculatePrayerTimes (fun _ => some 0) (JSDate.valid 2024 3 20) 60 0 "UTC"
          "Makkah" "Shafi").isha) := by
  rw [calculatePrayerTimes_valid]
  dsimp only
  rw [show lookupIshaAngle "Makkah" = 90 from rfl]
  rw [calculateMaghrib_eq]
  have hst := solarTime_equinox_bounds
  set st := calculateSolarTime (fun _ => some 0) (getJulianDate 2024 3 20) 0 "UTC"
    with hstdef
  have hmag : wrap24 (st + 6) = st + 6 :=
    wrap24_eq_self (by linarith [hst.1]) (by linarith [hst.2])
  rcases calculateIsha_makkah_cases st with hi | hi <;> rw [hi, hmag]
  · rw [wrap24_eq_self (by linarith [hst.1]) (by linarith [hst.2])]
    intro hcon
    linarith
  · exact lt_irrefl _

/-- Claim C3 amended: the full six-way strict ordering does not hold for
every method (see the Makkah counterexample); what the engine does
guarantee, for every latitude, method and madhab, is the middle chain —
whenever the apparent solar time lies in `[6, 18)` the returned values
satisfy `sunrise < dhuhr < maghrib` (they are `solarTime - 6`, `solarTime`
and `solarTime + 6`, all unwrapped). -/
theorem claim_C3_amended (resolve : String → Option ℝ) (year month day : ℤ)
    (latitude longitude : ℝ) (timezone method madhab : String)
    (h6 : 6 ≤ calculateSolarTime resolve (getJulianDate year month day)
      longitude timezone)
    (h18 : calculateSolarTime resolve (getJulianDate year month day)
      longitude timezone < 18) :
    (calculatePrayerTimes resolve (JSDate.valid year month day) latitude longitude
        timezone method madhab).sunrise <
      (calculatePrayerTimes resolve (JSDate.valid year month day) latitude longitude
        timezone method madhab).dhuhr ∧
    (calculatePrayerTimes resolve (JSDate.valid year month day) latitude longitude
        timezone method madhab).dhuhr <
      (calculatePrayerTimes resolve (JSDate.valid year month day) latitude longitude
        timezone method madhab).maghrib := by
  rw [calculatePrayerTimes_valid]
  dsimp only
  rw [calculateSunrise_eq, calculateMaghrib_eq]
  unfold calculateDhuhr
  set st := calculateSolarTime resolve (getJulianDate year month day)
    longitude timezone with hstdef
  rw [wrap24_eq_self (by linarith) (by linarith),
    wrap24_eq_self (by linarith) (by linarith),
    wrap24_eq_self (by linarith) (by linarith)]
  constructor <;> linarith

/-- Witness for the amended statement of C3 at the 2024 March equinox, longitude
0, offset 0, method `Karachi`, madhab `Hanafi`, where the solar time lies in
`[11.2, 14.4) ⊆ [6, 18)`. -/
theorem claim_C3_amended_witness :
    (6 ≤ calculateSolarTime (fun _ => some 0) (getJulianDate 2024 3 20) 0 "UTC" ∧
      calculateSolarTime (fun _ => some 0) (getJulianDate 2024 3 20) 0 "UTC" < 18) ∧
    ((calculatePrayerTimes (fun _ => some 0) (JSDate.valid 2024 3 20) 60 0 "UTC"
          "Karachi" "Hanafi").sunrise <
        (calculatePrayerTimes (fun _ => some 0) (JSDate.valid 2024 3 20) 60 0 "UTC"
          "Karachi" "Hanafi").dhuhr ∧
      (calculatePrayerTimes (fun _ => some 0) (JSDate.valid 2024 3 20) 60 0 "UTC"
          "Karachi" "Hanafi").dhuhr <
        (calculatePrayerTimes (fun _ => some 0) (JSDate.valid 2024 3 20) 60 0 "UTC"
          "Karachi" "Hanafi").maghrib) := by
  have hst := solarTime_equinox_bounds
  have h6 : 6 ≤ calculateSolarTime (fun _ => some 0) (getJulianDate 2024 3 20) 0 "UTC" := by
    linarith [hst.1]
  have h18 : calculateSolarTime (fun _ => some 0) (getJulianDate 2024 3 20) 0 "UTC" < 18 := by
    linarith [hst.2]
  exact ⟨⟨h6, h18⟩,
    claim_C3_amended (fun _ => some 0) 2024 3 20 60 0 "UTC" "Karachi" "Hanafi" h6 h18⟩

/-- Truncating to whole minutes keeps a decimal-hour value within one
sixtieth of an hour. -/
theorem floor_minute_close (x : ℝ) :
    |((⌊x⌋ : ℝ) + ((⌊(x - (⌊x⌋ : ℝ)) * 60⌋ : ℤ) : ℝ) / 60) - x| ≤ 1 / 60 := by
  have h3 : ((⌊(x - (⌊x⌋ : ℝ)) * 60⌋ : ℤ) : ℝ) ≤ (x - (⌊x⌋ : ℝ)) * 60 :=
    Int.floor_le _
  have h4 : (x - (⌊x⌋ : ℝ)) * 60 < ((⌊(x - (⌊x⌋ : ℝ)) * 60⌋ : ℤ) : ℝ) + 1 :=
    Int.lt_floor_add_one _
  rw [abs_le]
  constructor <;> [linarith; linarith]

/-- The same bound stated for any integer known to equal `⌊x⌋`, in the form
produced by the hour-reconstruction case split. -/
theorem minute_close_of_eq (x : ℝ) (e : ℤ) (he : e = ⌊x⌋) :
    |((e : ℝ) + ((⌊(x - (⌊x⌋ : ℝ)) * 60⌋ : ℤ) : ℝ) / 60) - x| ≤ 1 / 60 := by
  rw [he]
  exact floor_minute_close x

/-- Claim C8: for every decimal-hour value `x` in the open interval
`(0, 24)` (excluding the ambiguous `x = 0` sentinel), converting the
formatted 12-hour string back with `convertTimeToDecimal (formatTime x)`
yields a value within `1/60` hour of `x` (the one-minute truncation
error). -/
theorem claim_C8_roundtrip (x : ℝ) (hx0 : 0 < x) (hx24 : x < 24) :
    ∃ t, formatTime x = some t ∧ |convertTimeToDecimal t - x| ≤ 1 / 60 := by
  have hne : x ≠ 0 := ne_of_gt hx0
  have hh0 : 0 ≤ ⌊x⌋ := Int.floor_nonneg.mpr hx0.le
  have hh23 : ⌊x⌋ ≤ 23 := by
    have : ⌊x⌋ < 24 := Int.floor_lt.mpr (by norm_num; exact hx24)
    omega
  have hfr0 : (0 : ℝ) ≤ x - (⌊x⌋ : ℝ) := by linarith [Int.floor_le x]
  have hfr1 : x - (⌊x⌋ : ℝ) < 1 := by linarith [Int.lt_floor_add_one x]
  have hm0 : 0 ≤ ⌊(x - (⌊x⌋ : ℝ)) * 60⌋ :=
    Int.floor_nonneg.mpr (by nlinarith)
  have hm59 : ⌊(x - (⌊x⌋ : ℝ)) * 60⌋ ≤ 59 := by
    have : ⌊(x - (⌊x⌋ : ℝ)) * 60⌋ < 60 := Int.floor_lt.mpr (by push_cast; nlinarith)
    omega
  have htm : Int.tmod ⌊x⌋ 12 = ⌊x⌋ % 12 := Int.tmod_eq_emod hh0 (by norm_num)
  refine ⟨{ hh := if ⌊x⌋ % 12 = 0 then 12 else ⌊x⌋ % 12,
            mm := ⌊(x - (⌊x⌋ : ℝ)) * 60⌋,
            pm := decide (12 ≤ ⌊x⌋) }, ?_, ?_⟩
  · unfold formatTime
    rw [if_neg hne]
    dsimp only
    rw [htm]
  · unfold convertTimeToDecimal
    dsimp only
    have hdh : 0 ≤ (if ⌊x⌋ % 12 = 0 then (12 : ℤ) else ⌊x⌋ % 12) ∧
        (if ⌊x⌋ % 12 = 0 then (12 : ℤ) else ⌊x⌋ % 12) ≤ 99 := by
      split_ifs with hc
      · norm_num
      · constructor <;> omega
    rw [if_pos ⟨hdh.1, hdh.2, hm0, by omega⟩]
    simp only [decide_eq_true_eq, decide_eq_false_iff_not]
    split_ifs <;> exact minute_close_of_eq x _ (by omega)

/-- Witness for C8 at `x = 27/2` (1:30 PM). -/
theorem claim_C8_roundtrip_witness :
    (0 : ℝ) < 27 / 2 ∧ (27 / 2 : ℝ) < 24 ∧
      ∃ t, formatTime (27 / 2 : ℝ) = some t ∧
        |convertTimeToDecimal t - 27 / 2| ≤ 1 / 60 :=
  ⟨by norm_num, by norm_num,
    claim_C8_roundtrip (27 / 2) (by norm_num) (by norm_num)⟩

end Adhan
